import Mathlib

/-!
Verification of the Realm list accessor facade (`src/list.cpp`).

The C++ class `List` wraps a non-owning reference `m_link_view` to an
external sequence (`LinkView`) and exposes `size`, `get`, `set`,
`verify_valid_row` and `verify_attached`.  We embed the external
sequence as an explicit state (attachment flag, optional deferred
update applied by `sync_if_needed`, and the ordered row references),
and each facade operation as a pure function that also returns the
trace of calls it delegates to the sequence.  Exceptions thrown by the
C++ code are embedded as `Except` errors.
-/

/-- A row reference: an opaque handle identifying one row of a table. -/
abbrev Row := Nat

/-- Model of the external sequence (`LinkView`) the facade wraps: its
attachment flag, an optional deferred external mutation (reconciled by
`sync_if_needed`), and the current ordered row references. -/
structure LinkView where
  attached : Bool
  pending : Option (List Row)
  rows : List Row
  deriving DecidableEq, Repr

/-- `LinkView::size`: current element count of the sequence. -/
def LinkView.size (lv : LinkView) : Nat := lv.rows.length

/-- `LinkView::get`: indexed read.  Its precondition is `i < size`;
`none` marks the unchecked/undefined behaviour outside it. -/
def LinkView.get (lv : LinkView) (i : Nat) : Option Row := lv.rows[i]?

/-- `LinkView::set`: indexed write of a target row index. -/
def LinkView.set (lv : LinkView) (i t : Nat) : LinkView :=
  { lv with rows := lv.rows.set i t }

/-- `LinkView::is_attached`: liveness query. -/
def LinkView.is_attached (lv : LinkView) : Bool := lv.attached

/-- `LinkView::sync_if_needed`: reconciles any deferred external
mutation into the visible row sequence. -/
def LinkView.sync_if_needed (lv : LinkView) : LinkView :=
  { lv with rows := lv.pending.getD lv.rows, pending := none }

/-- One delegated call from the facade to the external sequence. -/
inductive Call where
  | size (ret : Nat)
  | get (i : Nat)
  | set (i t : Nat)
  | isAttached (ret : Bool)
  | syncIfNeeded
  deriving DecidableEq, Repr

/-- The two error conditions the facade can raise: `std::out_of_range`
carrying the offending index and the observed size, and the
`std::runtime_error` for a detached sequence. -/
inductive ListError where
  | outOfRange (index size : Nat)
  | notAttached
  deriving DecidableEq, Repr

/-- The message attached to each thrown exception, exactly as built in
`src/list.cpp`. -/
def ListError.message : ListError → String
  | .outOfRange i n =>
      "Index " ++ toString i ++ " is outside of range 0..." ++ toString n ++ "."
  | .notAttached => "Tableview is not attached"

/-- The facade `List` of `src/list.cpp`: its only state is the
non-owning reference `m_link_view` to the external sequence.  (Named
`RealmList` here because `List` is taken by Lean.) -/
structure RealmList where
  m_link_view : LinkView
  deriving DecidableEq, Repr

/-- `List::verify_valid_row`: reads the current size from the sequence
and throws `out_of_range` when `row_ndx >= size`.  Returns the outcome
together with the delegated-call trace. -/
def RealmList.verify_valid_row (l : RealmList) (row_ndx : Nat) :
    Except ListError Unit × List Call :=
  let size := l.m_link_view.size
  (if row_ndx ≥ size then .error (.outOfRange row_ndx size) else .ok (),
   [Call.size size])

/-- `List::get`: bounds check, then delegated indexed read.  The read
does not change the sequence, so only the result and trace are
returned; `.ok none` would mean the delegate was invoked outside its
precondition. -/
def RealmList.get (l : RealmList) (row_ndx : Nat) :
    Except ListError (Option Row) × List Call :=
  match l.verify_valid_row row_ndx with
  | (.error e, tr) => (.error e, tr)
  | (.ok _, tr) => (.ok (l.m_link_view.get row_ndx), tr ++ [Call.get row_ndx])

/-- `List::set`: bounds check on `row_ndx`, then delegated indexed
write of `target_row_ndx`.  Returns outcome, resulting facade state
and trace. -/
def RealmList.set (l : RealmList) (row_ndx target_row_ndx : Nat) :
    Except ListError Unit × RealmList × List Call :=
  match l.verify_valid_row row_ndx with
  | (.error e, tr) => (.error e, l, tr)
  | (.ok _, tr) =>
      (.ok (), ⟨l.m_link_view.set row_ndx target_row_ndx⟩,
       tr ++ [Call.set row_ndx target_row_ndx])

/-- `List::size`: delegated size query, fresh on every call. -/
def RealmList.size (l : RealmList) : Nat × List Call :=
  (l.m_link_view.size, [Call.size l.m_link_view.size])

/-- `List::verify_attached`: throws when the sequence is detached,
otherwise triggers its refresh (`sync_if_needed`). -/
def RealmList.verify_attached (l : RealmList) :
    Except ListError Unit × RealmList × List Call :=
  if l.m_link_view.is_attached then
    (.ok (), ⟨l.m_link_view.sync_if_needed⟩,
     [Call.isAttached true, Call.syncIfNeeded])
  else
    (.error .notAttached, l, [Call.isAttached false])

/-- A concrete attached sequence of size 3, used to instantiate the
theorems below. -/
def exSeq : RealmList := ⟨⟨true, none, [10, 11, 12]⟩⟩

/-- Helper: a successful bounds check.  For `i < size`, `get i`
returns the delegated read and its trace is the size query followed by
the delegated read. -/
theorem RealmList.get_eq_of_lt (l : RealmList) (i : Nat)
    (h : i < l.m_link_view.size) :
    l.get i = (.ok (l.m_link_view.get i),
      [Call.size l.m_link_view.size, Call.get i]) := by
  simp [RealmList.get, RealmList.verify_valid_row, Nat.not_le.mpr h]

/-- Helper: a failed bounds check in `get` produces the out-of-range
error with the observed size; only the size query is delegated. -/
theorem RealmList.get_eq_of_le (l : RealmList) (i : Nat)
    (h : l.m_link_view.size ≤ i) :
    l.get i = (.error (.outOfRange i l.m_link_view.size),
      [Call.size l.m_link_view.size]) := by
  simp [RealmList.get, RealmList.verify_valid_row, h]

/-- Helper: for `i < size`, `set i t` delegates the write of `t` after
the size query and returns the written sequence. -/
theorem RealmList.set_eq_of_lt (l : RealmList) (i t : Nat)
    (h : i < l.m_link_view.size) :
    l.set i t = (.ok (), ⟨l.m_link_view.set i t⟩,
      [Call.size l.m_link_view.size, Call.set i t]) := by
  simp [RealmList.set, RealmList.verify_valid_row, Nat.not_le.mpr h]

/-- Helper: a failed bounds check in `set` produces the out-of-range
error, leaves the facade state untouched and delegates no write. -/
theorem RealmList.set_eq_of_le (l : RealmList) (i t : Nat)
    (h : l.m_link_view.size ≤ i) :
    l.set i t = (.error (.outOfRange i l.m_link_view.size), l,
      [Call.size l.m_link_view.size]) := by
  simp [RealmList.set, RealmList.verify_valid_row, h]

/-- Helper: an in-bounds delegated read yields the element at `i`. -/
theorem LinkView.get_some_of_lt (lv : LinkView) (i : Nat)
    (h : i < lv.size) :
    lv.get i = some (lv.rows.get ⟨i, h⟩) := by
  rw [LinkView.get, List.getElem?_eq_getElem h, List.get_eq_getElem]

/-- C1: `get(i)` succeeds and returns the sequence's element at `i`
iff `0 <= i < n` (with `n` the sequence's size); otherwise it fails
with an OutOfRange error carrying exactly `i` and `n`. -/
theorem RealmList.get_bounds (l : RealmList) (i : Nat) :
    ((∃ r, (l.get i).1 = .ok (some r)) ↔ i < l.m_link_view.size) ∧
    (∀ h : i < l.m_link_view.size,
      (l.get i).1 = .ok (some (l.m_link_view.rows.get ⟨i, h⟩))) ∧
    (¬ i < l.m_link_view.size →
      (l.get i).1 = .error (.outOfRange i l.m_link_view.size)) := by
  by_cases h : i < l.m_link_view.size
  · have hget : (l.get i).1 = .ok (some (l.m_link_view.rows.get ⟨i, h⟩)) := by
      rw [RealmList.get_eq_of_lt l i h]
      exact congrArg Except.ok (LinkView.get_some_of_lt l.m_link_view i h)
    exact ⟨⟨fun _ => h, fun _ => ⟨_, hget⟩⟩, fun _ => hget,
      fun h2 => absurd h h2⟩
  · have hget : (l.get i).1 = .error (.outOfRange i l.m_link_view.size) := by
      rw [RealmList.get_eq_of_le l i (Nat.le_of_not_lt h)]
    refine ⟨⟨fun ⟨r, hr⟩ => ?_, fun h2 => absurd h2 h⟩,
      fun h2 => absurd h2 h, fun _ => hget⟩
    rw [hget] at hr
    simp at hr

/-- Witness for C1 at the concrete size-3 sequence: `get 1` succeeds
with the element at index 1, and `get 3` fails with
`OutOfRange 3 3`. -/
theorem RealmList.get_bounds_witness :
    (exSeq.get 1).1 = .ok (some 11) ∧
    (exSeq.get 3).1 = .error (.outOfRange 3 3) := by
  exact ⟨(RealmList.get_bounds exSeq 1).2.1 (by decide),
    (RealmList.get_bounds exSeq 3).2.2 (by decide)⟩

/-- C2: `set(i, t)` succeeds iff `0 <= i < n`, failing with an
OutOfRange error carrying `i` and `n` otherwise; on success the target
`t` is handed unchanged to the sequence's indexed write, whatever its
value. -/
theorem RealmList.set_bounds (l : RealmList) (i t : Nat) :
    ((l.set i t).1 = .ok () ↔ i < l.m_link_view.size) ∧
    (i < l.m_link_view.size →
      (l.set i t).2.1.m_link_view = l.m_link_view.set i t ∧
      Call.set i t ∈ (l.set i t).2.2) ∧
    (¬ i < l.m_link_view.size →
      (l.set i t).1 = .error (.outOfRange i l.m_link_view.size)) := by
  by_cases h : i < l.m_link_view.size
  · rw [RealmList.set_eq_of_lt l i t h]
    exact ⟨⟨fun _ => h, fun _ => rfl⟩, fun _ => ⟨rfl, by simp⟩,
      fun h2 => absurd h h2⟩
  · rw [RealmList.set_eq_of_le l i t (Nat.le_of_not_lt h)]
    refine ⟨⟨fun h2 => ?_, fun h2 => absurd h2 h⟩,
      fun h2 => absurd h2 h, fun _ => rfl⟩
    simp at h2

/-- Witness for C2: on the size-3 sequence `set 1 42` succeeds and
writes `42` through unchanged (even though `42` is far outside the
sequence's own index range), and `set 5 42` fails with
`OutOfRange 5 3`. -/
theorem RealmList.set_bounds_witness :
    (exSeq.set 1 42).1 = .ok () ∧
    (exSeq.set 1 42).2.1.m_link_view = exSeq.m_link_view.set 1 42 ∧
    Call.set 1 42 ∈ (exSeq.set 1 42).2.2 ∧
    (exSeq.set 5 42).1 = .error (.outOfRange 5 3) := by
  exact ⟨(RealmList.set_bounds exSeq 1 42).1.mpr (by decide),
    ((RealmList.set_bounds exSeq 1 42).2.1 (by decide)).1,
    ((RealmList.set_bounds exSeq 1 42).2.1 (by decide)).2,
    (RealmList.set_bounds exSeq 5 42).2.2 (by decide)⟩

/-- C3: whenever `get` or `set` fails the bounds check (the index lies
outside the half-open range `[0, size)`), the OutOfRange error carries
the offending index and the size observed at check time, and its
message text embeds both numbers; every index inside `[0, size)` is
accepted. -/
theorem RealmList.oor_reports (l : RealmList) (i t : Nat)
    (h : i ∉ Finset.Ico 0 l.m_link_view.size) :
    (l.get i).1 = .error (.outOfRange i l.m_link_view.size) ∧
    (l.set i t).1 = .error (.outOfRange i l.m_link_view.size) ∧
    (ListError.outOfRange i l.m_link_view.size).message
      = "Index " ++ toString i ++ " is outside of range 0..."
        ++ toString l.m_link_view.size ++ "." ∧
    (toString i).data <:+:
      ((ListError.outOfRange i l.m_link_view.size).message).data ∧
    (toString l.m_link_view.size).data <:+:
      ((ListError.outOfRange i l.m_link_view.size).message).data ∧
    ∀ j ∈ Finset.Ico 0 l.m_link_view.size,
      ∃ r, (l.get j).1 = .ok (some r) := by
  have hle : l.m_link_view.size ≤ i :=
    Nat.le_of_not_lt (by simpa [Finset.mem_Ico] using h)
  have hdata : ((ListError.outOfRange i l.m_link_view.size).message).data
      = "Index ".data ++ ((toString i).data
        ++ (" is outside of range 0...".data
          ++ ((toString l.m_link_view.size).data ++ ".".data))) := by
    simp [ListError.message, String.data_append]
  refine ⟨by rw [RealmList.get_eq_of_le l i hle],
    by rw [RealmList.set_eq_of_le l i t hle], rfl, ?_, ?_, ?_⟩
  · exact ⟨"Index ".data, " is outside of range 0...".data
      ++ ((toString l.m_link_view.size).data ++ ".".data),
      by rw [hdata]; simp⟩
  · exact ⟨"Index ".data ++ ((toString i).data
      ++ " is outside of range 0...".data), ".".data,
      by rw [hdata]; simp⟩
  · intro j hj
    have hjlt : j < l.m_link_view.size := by
      simpa [Finset.mem_Ico] using hj
    exact ⟨l.m_link_view.rows.get ⟨j, hjlt⟩, by
      rw [RealmList.get_eq_of_lt l j hjlt]
      exact congrArg Except.ok (LinkView.get_some_of_lt l.m_link_view j hjlt)⟩

/-- Witness for C3: `get 5` on the size-3 sequence fails with
`OutOfRange 5 3`, whose message is the concrete string naming 5
and 3. -/
theorem RealmList.oor_reports_witness :
    (exSeq.get 5).1 = .error (.outOfRange 5 3) ∧
    (ListError.outOfRange 5 3).message
      = "Index 5 is outside of range 0...3." := by
  have h := RealmList.oor_reports exSeq 5 42 (by decide)
  exact ⟨h.1, h.2.2.1.trans (by decide)⟩

/-- C4: the facade never invokes the delegated read or write outside
`[0, size)`: every delegated `get`/`set` event in a trace carries an
in-bounds index, and the delegated read never lands in its
unchecked/undefined branch (the read result is never `none`). -/
theorem RealmList.delegate_safe (l : RealmList) (i t : Nat) :
    (∀ j, Call.get j ∈ (l.get i).2 → j < l.m_link_view.size) ∧
    (∀ j u, Call.set j u ∈ (l.set i t).2.2 → j < l.m_link_view.size) ∧
    (∀ r, (l.get i).1 = .ok r → r ≠ none) := by
  by_cases h : i < l.m_link_view.size
  · rw [RealmList.get_eq_of_lt l i h, RealmList.set_eq_of_lt l i t h]
    refine ⟨fun j hj => ?_, fun j u hj => ?_, fun r hr => ?_⟩
    · simp at hj
      exact hj ▸ h
    · simp at hj
      exact hj.1 ▸ h
    · simp only [Except.ok.injEq] at hr
      rw [← hr, LinkView.get_some_of_lt l.m_link_view i h]
      simp
  · have hle := Nat.le_of_not_lt h
    rw [RealmList.get_eq_of_le l i hle, RealmList.set_eq_of_le l i t hle]
    refine ⟨fun j hj => ?_, fun j u hj => ?_, fun r hr => ?_⟩
    · simp at hj
    · simp at hj
    · simp at hr

/-- Witness for C4: in the trace of `get 1` on the size-3 sequence the
delegated read event appears, and the theorem yields its
in-boundedness. -/
theorem RealmList.delegate_safe_witness :
    Call.get 1 ∈ (exSeq.get 1).2 ∧ 1 < exSeq.m_link_view.size := by
  refine ⟨by decide, (RealmList.delegate_safe exSeq 1 0).1 1 (by decide)⟩

/-- A concrete detached sequence, used to instantiate the attachment
theorems. -/
def exDetached : RealmList := ⟨⟨false, none, [10, 11, 12]⟩⟩

/-- C5: `verify_attached` fails with NotAttached (an error distinct
from every OutOfRange error) iff the bound sequence is detached,
whatever its contents; it triggers the refresh `sync_if_needed` iff
the sequence is attached, and in that case the attachment query comes
before the refresh in the delegated-call trace. -/
theorem RealmList.attach_gate (l : RealmList) :
    ((l.verify_attached).1 = .error .notAttached ↔
      l.m_link_view.is_attached = false) ∧
    ((l.verify_attached).1 = .ok () ↔ l.m_link_view.is_attached = true) ∧
    (Call.syncIfNeeded ∈ (l.verify_attached).2.2 ↔
      l.m_link_view.is_attached = true) ∧
    (l.m_link_view.is_attached = true →
      (l.verify_attached).2.1.m_link_view = l.m_link_view.sync_if_needed ∧
      (l.verify_attached).2.2 = [Call.isAttached true, Call.syncIfNeeded]) ∧
    (l.m_link_view.is_attached = false →
      (l.verify_attached).2.2 = [Call.isAttached false]) ∧
    ∀ i n, (ListError.notAttached : ListError) ≠ .outOfRange i n := by
  cases hatt : l.m_link_view.attached <;>
    simp [RealmList.verify_attached, LinkView.is_attached, hatt]

/-- Witness for C5: the detached size-3 sequence makes
`verify_attached` fail with NotAttached, while on the attached one the
trace is the attachment query followed by the refresh. -/
theorem RealmList.attach_gate_witness :
    (exDetached.verify_attached).1 = .error .notAttached ∧
    (exSeq.verify_attached).2.2
      = [Call.isAttached true, Call.syncIfNeeded] := by
  exact ⟨(RealmList.attach_gate exDetached).1.mpr (by decide),
    ((RealmList.attach_gate exSeq).2.2.2.1 (by decide)).2⟩

/-- C6: when `set` fails with OutOfRange, the sequence is left
unmodified: the facade state is unchanged and no delegated write
occurs in the trace. -/
theorem RealmList.set_error_no_write (l : RealmList) (i t : Nat)
    (e : ListError) (h : (l.set i t).1 = .error e) :
    (l.set i t).2.1 = l ∧ ∀ j u, Call.set j u ∉ (l.set i t).2.2 := by
  by_cases hlt : i < l.m_link_view.size
  · rw [RealmList.set_eq_of_lt l i t hlt] at h
    simp at h
  · rw [RealmList.set_eq_of_le l i t (Nat.le_of_not_lt hlt)]
    exact ⟨rfl, by simp⟩

/-- Witness for C6: `set 5 42` on the size-3 sequence fails and leaves
the facade bound to the unchanged sequence, with no write event. -/
theorem RealmList.set_error_no_write_witness :
    (exSeq.set 5 42).2.1 = exSeq ∧
    ∀ j u, Call.set j u ∉ (exSeq.set 5 42).2.2 :=
  RealmList.set_error_no_write exSeq 5 42 (.outOfRange 5 3) rfl

/-- C7: `size`, `get` and `set` never perform the attachment check:
their traces contain no attachment query and no refresh, and `get` and
`set` never produce the NotAttached error. -/
theorem RealmList.no_implicit_attach_check (l : RealmList) (i t : Nat) :
    (∀ b, Call.isAttached b ∉ (l.size).2 ∧
      Call.isAttached b ∉ (l.get i).2 ∧
      Call.isAttached b ∉ (l.set i t).2.2) ∧
    (Call.syncIfNeeded ∉ (l.size).2 ∧
      Call.syncIfNeeded ∉ (l.get i).2 ∧
      Call.syncIfNeeded ∉ (l.set i t).2.2) ∧
    ((l.get i).1 ≠ .error .notAttached ∧
      (l.set i t).1 ≠ .error .notAttached) := by
  by_cases h : i < l.m_link_view.size
  · rw [RealmList.get_eq_of_lt l i h, RealmList.set_eq_of_lt l i t h]
    simp [RealmList.size]
  · rw [RealmList.get_eq_of_le l i (Nat.le_of_not_lt h),
      RealmList.set_eq_of_le l i t (Nat.le_of_not_lt h)]
    simp [RealmList.size]

/-- Witness for C7 on the concrete sequence: `get 1` delegates no
refresh and cannot report NotAttached. -/
theorem RealmList.no_implicit_attach_check_witness :
    Call.syncIfNeeded ∉ (exSeq.get 1).2 ∧
    (exSeq.get 1).1 ≠ .error .notAttached :=
  ⟨(RealmList.no_implicit_attach_check exSeq 1 0).2.1.2.1,
   (RealmList.no_implicit_attach_check exSeq 1 0).2.2.1⟩

/-- C8: the size query and the internal bounds check always read the
sequence's current size: `size` equals the current element count in
every state, including any state reached by an external mutation `f`
(so two consecutive calls straddling a length change observe different
values), and the bounds check compares the index against the length
current at check time. -/
theorem RealmList.size_fresh (l : RealmList) (f : LinkView → LinkView)
    (i : Nat) :
    (l.size).1 = l.m_link_view.rows.length ∧
    ((⟨f l.m_link_view⟩ : RealmList).size).1
      = (f l.m_link_view).rows.length ∧
    ((l.verify_valid_row i).1
      = if l.m_link_view.rows.length ≤ i
        then .error (.outOfRange i l.m_link_view.rows.length)
        else .ok ()) ∧
    ((f l.m_link_view).rows.length ≠ l.m_link_view.rows.length →
      ((⟨f l.m_link_view⟩ : RealmList).size).1 ≠ (l.size).1) := by
  exact ⟨rfl, rfl, rfl, fun hne => hne⟩

/-- Witness for C8: emptying the size-3 sequence between two `size`
calls makes the second call observe 0 instead of 3. -/
theorem RealmList.size_fresh_witness :
    ((⟨⟨true, none, ([] : List Row)⟩⟩ : RealmList).size).1
      ≠ (exSeq.size).1 := by
  exact (RealmList.size_fresh exSeq
    (fun lv => ⟨lv.attached, lv.pending, []⟩) 0).2.2.2 (by decide)

/-- C9: reading back a freshly written position returns exactly what
the sequence itself yields for the written target: after a successful
`set i t`, `get i` returns the delegate's read unchanged, and that
read resolves to `t` at position `i`. -/
theorem RealmList.get_after_set (l : RealmList) (i t : Nat)
    (h : i < l.m_link_view.size) :
    ((l.set i t).2.1.get i).1 = .ok ((l.set i t).2.1.m_link_view.get i) ∧
    (l.set i t).2.1.m_link_view.get i = some t := by
  have hset := RealmList.set_eq_of_lt l i t h
  have hlen : i < ((l.set i t).2.1.m_link_view).size := by
    rw [hset]
    simpa [LinkView.set, LinkView.size] using h
  constructor
  · rw [RealmList.get_eq_of_lt _ i hlen]
  · rw [hset]
    simpa [LinkView.get, LinkView.set] using List.getElem?_set_eq_of_lt t h

/-- Witness for C9: after `set 1 42` on the size-3 sequence, `get 1`
returns row reference 42. -/
theorem RealmList.get_after_set_witness :
    ((exSeq.set 1 42).2.1.get 1).1 = .ok (some 42) := by
  have h := RealmList.get_after_set exSeq 1 42 (by decide)
  rw [h.1, h.2]

/-- C10: every facade operation is a deterministic function of its
arguments and of the bound sequence's state: equal states and equal
arguments give identical results, successor states, delegated-call
traces, and error messages. -/
theorem RealmList.facade_deterministic (l1 l2 : RealmList) (i t : Nat)
    (h : l1 = l2) :
    l1.size = l2.size ∧ l1.get i = l2.get i ∧ l1.set i t = l2.set i t ∧
    l1.verify_attached = l2.verify_attached ∧
    ∀ e1 e2 : ListError, e1 = e2 → e1.message = e2.message := by
  subst h
  exact ⟨rfl, rfl, rfl, rfl, fun e1 e2 he => he ▸ rfl⟩

/-- Witness for C10 at the concrete sequence and arguments. -/
theorem RealmList.facade_deterministic_witness :
    exSeq.get 1 = exSeq.get 1 ∧
    exSeq.verify_attached = exSeq.verify_attached :=
  ⟨(RealmList.facade_deterministic exSeq exSeq 1 0 rfl).2.1,
   (RealmList.facade_deterministic exSeq exSeq 1 0 rfl).2.2.2.1⟩
